import Mathlib

/-!
Shallow embedding of `psychrolib.py` (PsychroLib 2.0.0, Python implementation)
over the real numbers.

Floating-point arithmetic is modelled by exact real arithmetic (`ℝ`), with
`math.exp` / `math.log` rendered as `Real.exp` / `Real.log`.  Python functions
that can raise `ValueError` are rendered as `Option`-valued functions
(`none` = an exception escapes).  The module-level mutable globals
`__UNITS` / `__TOL` are threaded explicitly as a `LibState` record, initialized
exactly as in the Python module (`__UNITS = None`, `__TOL = 1.0`) and updated
by `SetUnitSystem`.  The two unbounded `while` loops (the Newton-Raphson solve
of `GetTDewPointFromVapPres` and the bisection of `GetTWetBulbFromHumRatio`)
are rendered with an explicit fuel parameter; exhausting the fuel yields
`none`, so `some r` means the Python loop reaches its exit condition (or an
exception) within that many iterations and returns `r`.

Real-number division is total (`x / 0 = 0`), whereas Python float division by
exactly `0.0` raises `ZeroDivisionError`; theorems below avoid relying on the
value of a division at a zero denominator.
-/

namespace Psychrolib

noncomputable section

/-- Unit system selector, `class UnitSystem(Enum)` of the source. -/
inductive UnitSystem where
  | IP
  | SI
deriving DecidableEq

/-- The module-level mutable globals of `psychrolib.py`: `__UNITS` (initially
`None`) and `__TOL` (initially `1.0`). -/
structure LibState where
  units : Option UnitSystem
  tol : ℝ

/-- The state of the module as imported, before any call to `SetUnitSystem`:
`__UNITS = None`, `__TOL = 1.0`. -/
def initState : LibState := ⟨none, 1⟩

/-- `SetUnitSystem`: store the selection and derive the tolerance
(`0.001 * 9 / 5` for IP, `0.001` for SI). -/
def SetUnitSystem (Units : UnitSystem) : LibState :=
  ⟨some Units, if Units = UnitSystem.IP then 0.001 * 9 / 5 else 0.001⟩

/-- `GetUnitSystem`: returns the current value of `__UNITS` (possibly the
unset marker `None`) and never raises. -/
def GetUnitSystem (st : LibState) : Option (Option UnitSystem) :=
  some st.units

/-- `isIP`: `True` for IP, `False` for SI, raises `ValueError` when the unit
system has not been defined. -/
def isIP (st : LibState) : Option Bool :=
  match st.units with
  | some UnitSystem.IP => some true
  | some UnitSystem.SI => some false
  | none => none

/-- `GetTRankineFromTFahrenheit`. -/
def GetTRankineFromTFahrenheit (TFahrenheit : ℝ) : ℝ :=
  TFahrenheit + 459.67

/-- `GetTKelvinFromTCelsius`. -/
def GetTKelvinFromTCelsius (TCelsius : ℝ) : ℝ :=
  TCelsius + 273.15

/-- The `LnPws` polynomial of `GetSatVapPres`, IP units, `TDryBulb ≤ 32` branch
(argument is the temperature in degree Rankine). -/
noncomputable def lnPwsIceIP (T : ℝ) : ℝ :=
  -1.0214165e4 / T - 4.8932428 - 5.3765794e-3 * T + 1.9202377e-7 * T ^ 2
    + 3.5575832e-10 * T ^ 3 - 9.0344688e-14 * T ^ 4 + 4.1635019 * Real.log T

/-- The `LnPws` polynomial of `GetSatVapPres`, IP units, `TDryBulb > 32` branch
(argument is the temperature in degree Rankine). -/
noncomputable def lnPwsLiquidIP (T : ℝ) : ℝ :=
  -1.0440397e4 / T - 1.1294650e1 - 2.7022355e-2 * T + 1.2890360e-5 * T ^ 2
    - 2.4780681e-9 * T ^ 3 + 6.5459673 * Real.log T

/-- The `LnPws` polynomial of `GetSatVapPres`, SI units, `TDryBulb ≤ 0` branch
(argument is the temperature in Kelvin). -/
noncomputable def lnPwsIceSI (T : ℝ) : ℝ :=
  -5.6745359e3 / T + 6.3925247 - 9.677843e-3 * T + 6.2215701e-7 * T ^ 2
    + 2.0747825e-9 * T ^ 3 - 9.484024e-13 * T ^ 4 + 4.1635019 * Real.log T

/-- The `LnPws` polynomial of `GetSatVapPres`, SI units, `TDryBulb > 0` branch
(argument is the temperature in Kelvin). -/
noncomputable def lnPwsLiquidSI (T : ℝ) : ℝ :=
  -5.8002206e3 / T + 1.3914993 - 4.8640239e-2 * T + 4.1764768e-5 * T ^ 2
    - 1.4452093e-8 * T ^ 3 + 6.5459673 * Real.log T

/-- `GetSatVapPres`: saturation vapor pressure over ice or liquid water, with
the range checks `[-148, 392] °F` (IP) and `[-100, 200] °C` (SI). -/
noncomputable def GetSatVapPres (st : LibState) (TDryBulb : ℝ) : Option ℝ :=
  (isIP st).bind fun ip =>
    if ip then
      if TDryBulb < -148 ∨ TDryBulb > 392 then none
      else
        let T := GetTRankineFromTFahrenheit TDryBulb
        let LnPws := if TDryBulb ≤ 32 then lnPwsIceIP T else lnPwsLiquidIP T
        some (Real.exp LnPws)
    else
      if TDryBulb < -100 ∨ TDryBulb > 200 then none
      else
        let T := GetTKelvinFromTCelsius TDryBulb
        let LnPws := if TDryBulb ≤ 0 then lnPwsIceSI T else lnPwsLiquidSI T
        some (Real.exp LnPws)

/-- `GetVapPresFromRelHum`: `RelHum * GetSatVapPres(TDryBulb)` after the
range check `0 ≤ RelHum ≤ 1`. -/
noncomputable def GetVapPresFromRelHum (st : LibState) (TDryBulb RelHum : ℝ) :
    Option ℝ :=
  if RelHum < 0 ∨ RelHum > 1 then none
  else (GetSatVapPres st TDryBulb).map fun s => RelHum * s

/-- `GetRelHumFromVapPres`: `VapPres / GetSatVapPres(TDryBulb)` after the
check `VapPres ≥ 0`. -/
noncomputable def GetRelHumFromVapPres (st : LibState) (TDryBulb VapPres : ℝ) :
    Option ℝ :=
  if VapPres < 0 then none
  else (GetSatVapPres st TDryBulb).map fun s => VapPres / s

/-- `GetHumRatioFromVapPres`: `0.621945 * VapPres / (Pressure - VapPres)` after
the check `VapPres ≥ 0`.  The function never reads the unit-system globals;
the state argument is threaded for uniformity only. -/
noncomputable def GetHumRatioFromVapPres (_st : LibState)
    (VapPres Pressure : ℝ) : Option ℝ :=
  if VapPres < 0 then none
  else some (0.621945 * VapPres / (Pressure - VapPres))

/-- `GetVapPresFromHumRatio`: `Pressure * HumRatio / (0.621945 + HumRatio)`
after the check `HumRatio ≥ 0`.  Never reads the unit-system globals. -/
noncomputable def GetVapPresFromHumRatio (_st : LibState)
    (HumRatio Pressure : ℝ) : Option ℝ :=
  if HumRatio < 0 then none
  else some (Pressure * HumRatio / (0.621945 + HumRatio))

/-- `GetSatHumRatio`: `0.621945 * SatVaporPres / (Pressure - SatVaporPres)`. -/
noncomputable def GetSatHumRatio (st : LibState) (TDryBulb Pressure : ℝ) :
    Option ℝ :=
  (GetSatVapPres st TDryBulb).map fun SatVaporPres =>
    0.621945 * SatVaporPres / (Pressure - SatVaporPres)

/-- `GetHumRatioFromTWetBulb`: ASHRAE eqn 33/35, branching on unit system and
on the freezing point of the wet-bulb temperature, after the check
`TWetBulb ≤ TDryBulb`. -/
noncomputable def GetHumRatioFromTWetBulb (st : LibState)
    (TDryBulb TWetBulb Pressure : ℝ) : Option ℝ :=
  if TWetBulb > TDryBulb then none
  else
    (GetSatHumRatio st TWetBulb Pressure).bind fun Wsstar =>
      (isIP st).map fun ip =>
        if ip then
          if TWetBulb ≥ 32 then
            ((1093 - 0.556 * TWetBulb) * Wsstar - 0.240 * (TDryBulb - TWetBulb))
              / (1093 + 0.444 * TDryBulb - TWetBulb)
          else
            ((1220 - 0.04 * TWetBulb) * Wsstar - 0.240 * (TDryBulb - TWetBulb))
              / (1220 + 0.444 * TDryBulb - 0.48 * TWetBulb)
        else
          if TWetBulb ≥ 0 then
            ((2501 - 2.326 * TWetBulb) * Wsstar - 1.006 * (TDryBulb - TWetBulb))
              / (2501 + 1.86 * TDryBulb - 4.186 * TWetBulb)
          else
            ((2830 - 0.24 * TWetBulb) * Wsstar - 1.006 * (TDryBulb - TWetBulb))
              / (2830 + 1.86 * TDryBulb - 2.1 * TWetBulb)

/-- The `while True` loop of `GetTDewPointFromVapPres`: one Newton-Raphson
step on the logarithm of the saturation vapor pressure, with the one-sided
finite-difference derivative (step directed toward the interior of the
domain), the clamp of the new estimate to `[lo, hi]`, and the exit test
`|TDewPoint - TDewPoint_iter| ≤ __TOL`.  `fuel` bounds the number of
iterations; `none` means an exception or fuel exhaustion. -/
def dewPointLoop (st : LibState) (lo hi stepMag tMidPoint lnVP : ℝ) :
    Nat → ℝ → Option ℝ
  | 0, _ => none
  | fuel + 1, TDewPoint_iter =>
    let StepSize := if TDewPoint_iter > tMidPoint then -stepMag else stepMag
    (GetSatVapPres st TDewPoint_iter).bind fun pws =>
      (GetSatVapPres st (TDewPoint_iter + StepSize)).bind fun pwsStep =>
        let lnVP_iter := Real.log pws
        let d_lnVP := (Real.log pwsStep - lnVP_iter) / StepSize
        let TDewPoint := TDewPoint_iter - (lnVP_iter - lnVP) / d_lnVP
        let TDewPoint := max TDewPoint lo
        let TDewPoint := min TDewPoint hi
        if |TDewPoint - TDewPoint_iter| ≤ st.tol then some TDewPoint
        else dewPointLoop st lo hi stepMag tMidPoint lnVP fuel TDewPoint

/-- `GetTDewPointFromVapPres`: unit-dependent bounds and step size, the range
check of `VapPres` against the saturation pressure at the bounds, the
Newton-Raphson loop started from `TDryBulb`, and the final clamp
`min(TDewPoint, TDryBulb)`. -/
def GetTDewPointFromVapPres (st : LibState) (fuel : Nat)
    (TDryBulb VapPres : ℝ) : Option ℝ :=
  (isIP st).bind fun ip =>
    let lo : ℝ := if ip then -148 else -100
    let hi : ℝ := if ip then 392 else 200
    let stepMag : ℝ := if ip then 0.01 * 9 / 5 else 0.01
    let TMidPoint := (lo + hi) / 2
    (GetSatVapPres st lo).bind fun svpLo =>
      (GetSatVapPres st hi).bind fun svpHi =>
        if VapPres < svpLo ∨ VapPres > svpHi then none
        else
          (dewPointLoop st lo hi stepMag TMidPoint (Real.log VapPres) fuel
              TDryBulb).map
            fun TDewPoint => min TDewPoint TDryBulb

/-- `GetTDewPointFromHumRatio`: the check `HumRatio ≥ 0`, then the composition
through `GetVapPresFromHumRatio` and `GetTDewPointFromVapPres`. -/
def GetTDewPointFromHumRatio (st : LibState) (fuel : Nat)
    (TDryBulb HumRatio Pressure : ℝ) : Option ℝ :=
  if HumRatio < 0 then none
  else
    (GetVapPresFromHumRatio st HumRatio Pressure).bind fun VapPres =>
      GetTDewPointFromVapPres st fuel TDryBulb VapPres

/-- The bisection loop of `GetTWetBulbFromHumRatio`: while
`TWetBulbSup - TWetBulbInf > __TOL`, compute the humidity ratio at the current
midpoint `TWetBulb`, shrink the interval (the midpoint becomes the new upper
bound when that ratio exceeds the target, the new lower bound otherwise), and
recompute the midpoint; on exit return the midpoint.  `fuel` bounds the number
of iterations. -/
def wetBulbLoop (st : LibState) (TDryBulb HumRatio Pressure : ℝ) :
    Nat → ℝ → ℝ → ℝ → Option ℝ
  | 0, _, _, _ => none
  | fuel + 1, TWetBulbInf, TWetBulbSup, TWetBulb =>
    if TWetBulbSup - TWetBulbInf > st.tol then
      (GetHumRatioFromTWetBulb st TDryBulb TWetBulb Pressure).bind fun Wstar =>
        if Wstar > HumRatio then
          wetBulbLoop st TDryBulb HumRatio Pressure fuel
            TWetBulbInf TWetBulb ((TWetBulb + TWetBulbInf) / 2)
        else
          wetBulbLoop st TDryBulb HumRatio Pressure fuel
            TWetBulb TWetBulbSup ((TWetBulbSup + TWetBulb) / 2)
    else some TWetBulb

/-- `GetTWetBulbFromHumRatio`: the check `HumRatio ≥ 0`, the dew point as
lower bound and the dry bulb as upper bound, and the bisection loop started
at the midpoint of that interval.  `dewFuel` bounds the inner Newton-Raphson
solve, `fuel` bounds the bisection. -/
def GetTWetBulbFromHumRatio (st : LibState) (dewFuel fuel : Nat)
    (TDryBulb HumRatio Pressure : ℝ) : Option ℝ :=
  if HumRatio < 0 then none
  else
    (GetTDewPointFromHumRatio st dewFuel TDryBulb HumRatio Pressure).bind
      fun TDewPoint =>
        wetBulbLoop st TDryBulb HumRatio Pressure fuel
          TDewPoint TDryBulb ((TDewPoint + TDryBulb) / 2)

/-- Modelled from the spec, §4.4 (wet-bulb from humidity ratio, bisection):
keep an interval `[lo, hi]`; when its width is at most the configured
tolerance return its midpoint, otherwise compute the humidity ratio the
wet-bulb formula would produce at the midpoint and compare it with the target,
the midpoint becoming the new upper bound if that ratio exceeds the target,
the new lower bound otherwise. -/
def wetBulbBisectSpec (st : LibState) (TDryBulb HumRatio Pressure : ℝ) :
    Nat → ℝ → ℝ → Option ℝ
  | 0, _, _ => none
  | fuel + 1, lo, hi =>
    if hi - lo ≤ st.tol then some ((hi + lo) / 2)
    else
      (GetHumRatioFromTWetBulb st TDryBulb ((hi + lo) / 2) Pressure).bind
        fun Wmid =>
          if Wmid > HumRatio then
            wetBulbBisectSpec st TDryBulb HumRatio Pressure fuel lo
              ((hi + lo) / 2)
          else
            wetBulbBisectSpec st TDryBulb HumRatio Pressure fuel
              ((hi + lo) / 2) hi

/-- Modelled from the spec, §4.4: reject a negative humidity ratio, compute
the dew point as a known lower bound, and bisect on the interval bounded
below by the dew point and above by the dry-bulb temperature. -/
def GetTWetBulbFromHumRatioSpec (st : LibState) (dewFuel fuel : Nat)
    (TDryBulb HumRatio Pressure : ℝ) : Option ℝ :=
  if HumRatio < 0 then none
  else
    (GetTDewPointFromHumRatio st dewFuel TDryBulb HumRatio Pressure).bind
      fun TDewPoint =>
        wetBulbBisectSpec st TDryBulb HumRatio Pressure fuel TDewPoint TDryBulb

/-- State right after `SetUnitSystem(SI)`. -/
def stSI : LibState := SetUnitSystem UnitSystem.SI

end

lemma stSI_units : stSI.units = some UnitSystem.SI := rfl

lemma stSI_tol : stSI.tol = 0.001 := by
  simp [stSI, SetUnitSystem]

lemma isIP_stSI : isIP stSI = some false := rfl

lemma isIP_of_SI {st : LibState} (h : st.units = some UnitSystem.SI) :
    isIP st = some false := by
  simp [isIP, h]

lemma isIP_of_IP {st : LibState} (h : st.units = some UnitSystem.IP) :
    isIP st = some true := by
  simp [isIP, h]

lemma getSatVapPres_SI_ice {st : LibState} (h : isIP st = some false) {t : ℝ}
    (h1 : -100 ≤ t) (h2 : t ≤ 0) :
    GetSatVapPres st t =
      some (Real.exp (lnPwsIceSI (GetTKelvinFromTCelsius t))) := by
  rw [GetSatVapPres, h, Option.some_bind]
  rw [if_neg (by simp), if_neg (by push_neg; constructor <;> linarith)]
  simp only [if_pos h2]

lemma getSatVapPres_SI_liquid {st : LibState} (h : isIP st = some false)
    {t : ℝ} (h1 : 0 < t) (h2 : t ≤ 200) :
    GetSatVapPres st t =
      some (Real.exp (lnPwsLiquidSI (GetTKelvinFromTCelsius t))) := by
  rw [GetSatVapPres, h, Option.some_bind]
  rw [if_neg (by simp), if_neg (by push_neg; constructor <;> linarith)]
  simp only [if_neg (by linarith : ¬ t ≤ 0)]

lemma getSatVapPres_pos {st : LibState} {t s : ℝ}
    (h : GetSatVapPres st t = some s) : 0 < s := by
  rcases hip : isIP st with _ | ip
  · rw [GetSatVapPres, hip] at h
    simp at h
  · rw [GetSatVapPres, hip, Option.some_bind] at h
    rcases ip <;> simp only [Bool.false_eq_true, if_true, if_false] at h <;>
      split_ifs at h <;> simp only [Option.some_inj] at h <;>
      first
        | exact absurd h (by simp)
        | exact h ▸ Real.exp_pos _

lemma getSatVapPres_range {st : LibState} {t s : ℝ}
    (h : GetSatVapPres st t = some s) :
    (isIP st = some true ∧ -148 ≤ t ∧ t ≤ 392) ∨
      (isIP st = some false ∧ -100 ≤ t ∧ t ≤ 200) := by
  rcases hip : isIP st with _ | ip
  · rw [GetSatVapPres, hip] at h
    simp at h
  · rw [GetSatVapPres, hip, Option.some_bind] at h
    rcases ip
    · refine Or.inr ⟨rfl, ?_⟩
      simp only [Bool.false_eq_true, if_false] at h
      by_cases hbound : t < -100 ∨ t > 200
      · rw [if_pos hbound] at h
        simp at h
      · push_neg at hbound
        exact hbound
    · refine Or.inl ⟨rfl, ?_⟩
      simp only [if_true] at h
      by_cases hbound : t < -148 ∨ t > 392
      · rw [if_pos hbound] at h
        simp at h
      · push_neg at hbound
        exact hbound

lemma getSatVapPres_isSome {st : LibState} {ip : Bool} (h : isIP st = some ip)
    {t : ℝ} (h1 : (if ip then (-148 : ℝ) else -100) ≤ t)
    (h2 : t ≤ (if ip then (392 : ℝ) else 200)) :
    ∃ s, GetSatVapPres st t = some s := by
  rw [GetSatVapPres, h, Option.some_bind]
  rcases ip <;> simp only [Bool.false_eq_true, if_true, if_false] at h1 h2 ⊢ <;>
    rw [if_neg (by push_neg; constructor <;> linarith)] <;>
    split_ifs <;> exact ⟨_, rfl⟩

/-- C3 counterexample: with the unit system still unset, `GetUnitSystem`
returns the unset marker without failing, and `GetHumRatioFromVapPres` —
which never consults the configuration — returns a numeric result instead of
an uninitialized-state fault. -/
theorem c3_uninitialized_counterexample :
    GetUnitSystem initState = some none ∧
      GetHumRatioFromVapPres initState 2 1 =
        some (0.621945 * 2 / (1 - 2)) := by
  refine ⟨rfl, ?_⟩
  rw [GetHumRatioFromVapPres, if_neg (by norm_num)]

/-- C3 (amended): before `SetUnitSystem` is called, operations that consult
the unit system through `isIP` (such as `GetSatVapPres` and
`GetTDewPointFromVapPres`) fail with the uninitialized-state fault, but
`GetUnitSystem` returns the unset value without failing, and
`GetHumRatioFromVapPres` never consults the configuration: its result is
independent of the state and, whenever the denominator
`Pressure - VapPres` is not exactly zero, it returns a numeric result for
every non-negative vapor pressure. -/
theorem c3_uninitialized_state :
    isIP initState = none ∧
      (∀ T : ℝ, GetSatVapPres initState T = none) ∧
      (∀ (fuel : Nat) (T V : ℝ),
        GetTDewPointFromVapPres initState fuel T V = none) ∧
      GetUnitSystem initState = some none ∧
      (∀ (st st' : LibState) (V P : ℝ),
        GetHumRatioFromVapPres st V P = GetHumRatioFromVapPres st' V P) ∧
      (∀ V P : ℝ, 0 ≤ V → P - V ≠ 0 →
        (GetHumRatioFromVapPres initState V P).isSome) := by
  refine ⟨rfl, fun T => ?_, fun fuel T V => ?_, rfl, fun st st' V P => rfl,
    fun V P hV _ => ?_⟩
  · rw [GetSatVapPres]
    rfl
  · rw [GetTDewPointFromVapPres]
    rfl
  · rw [GetHumRatioFromVapPres, if_neg (by linarith)]
    rfl

/-- C3 witness: the amended statement applied at vapor pressure `2` and
pressure `1` (nonzero denominator) in the uninitialized state. -/
theorem c3_witness :
    (0 : ℝ) ≤ 2 ∧ (1 : ℝ) - 2 ≠ 0 ∧
      (GetHumRatioFromVapPres initState 2 1).isSome :=
  ⟨by norm_num, by norm_num,
    c3_uninitialized_state.2.2.2.2.2 2 1 (by norm_num) (by norm_num)⟩

/-- C4: `GetVapPresFromRelHum` rejects a relative humidity outside `[0, 1]`,
`GetTWetBulbFromHumRatio` rejects a negative humidity ratio, and
`GetHumRatioFromTWetBulb` rejects a wet-bulb temperature strictly above the
dry-bulb temperature; each fails with the invalid-argument fault instead of
returning a numeric result. -/
theorem c4_domain_rejection :
    (∀ (st : LibState) (T R : ℝ), R < 0 ∨ R > 1 →
      GetVapPresFromRelHum st T R = none) ∧
      (∀ (st : LibState) (dewFuel fuel : Nat) (T W P : ℝ), W < 0 →
        GetTWetBulbFromHumRatio st dewFuel fuel T W P = none) ∧
      (∀ (st : LibState) (T Twb P : ℝ), Twb > T →
        GetHumRatioFromTWetBulb st T Twb P = none) := by
  refine ⟨fun st T R h => ?_, fun st df f T W P h => ?_, fun st T Twb P h => ?_⟩
  · rw [GetVapPresFromRelHum, if_pos h]
  · rw [GetTWetBulbFromHumRatio, if_pos h]
  · rw [GetHumRatioFromTWetBulb, if_pos h]

/-- C4 witness: the rejections at relative humidity `1.5`, humidity ratio
`-0.01`, and wet-bulb `1` above dry-bulb `0`. -/
theorem c4_witness :
    (((1.5 : ℝ) < 0 ∨ (1.5 : ℝ) > 1) ∧
        GetVapPresFromRelHum initState 25 1.5 = none) ∧
      ((-0.01 : ℝ) < 0 ∧
        GetTWetBulbFromHumRatio initState 1 1 25 (-0.01) 101325 = none) ∧
      ((1 : ℝ) > 0 ∧ GetHumRatioFromTWetBulb initState 0 1 101325 = none) :=
  ⟨⟨Or.inr (by norm_num), c4_domain_rejection.1 _ _ _ (Or.inr (by norm_num))⟩,
    ⟨by norm_num, c4_domain_rejection.2.1 _ _ _ _ _ _ (by norm_num)⟩,
    ⟨by norm_num, c4_domain_rejection.2.2 _ _ _ _ (by norm_num)⟩⟩

/-- C10: `GetHumRatioFromVapPres` rejects exactly the negative vapor
pressures and never checks the vapor pressure against the total pressure:
whenever `0 ≤ VapPres` (and the denominator is not exactly zero) it returns
the quotient `0.621945 * VapPres / (Pressure - VapPres)` numerically, so for
`Pressure = 1 < 2 = VapPres` it returns a negative humidity ratio instead of
an invalid-argument fault; `GetSatHumRatio` divides by
`Pressure - SatVaporPres` just as unguardedly and at `(25 °C, Pressure = 0)`
returns a negative saturation humidity ratio. -/
theorem c10_unguarded_denominator :
    (∀ (st : LibState) (V P : ℝ), V < 0 →
      GetHumRatioFromVapPres st V P = none) ∧
      (∀ (st : LibState) (V P : ℝ), 0 ≤ V → P - V ≠ 0 →
        GetHumRatioFromVapPres st V P =
          some (0.621945 * V / (P - V))) ∧
      ((0 : ℝ) ≤ 1 ∧ (1 : ℝ) ≤ 2 ∧
        GetHumRatioFromVapPres initState 2 1 =
          some (0.621945 * 2 / (1 - 2)) ∧
        0.621945 * 2 / (1 - 2) < (0 : ℝ)) ∧
      (GetSatHumRatio stSI 25 0 =
          some (0.621945 * Real.exp (lnPwsLiquidSI (GetTKelvinFromTCelsius 25))
            / (0 - Real.exp (lnPwsLiquidSI (GetTKelvinFromTCelsius 25)))) ∧
        0.621945 * Real.exp (lnPwsLiquidSI (GetTKelvinFromTCelsius 25))
            / (0 - Real.exp (lnPwsLiquidSI (GetTKelvinFromTCelsius 25))) < 0) := by
  refine ⟨fun st V P h => ?_, fun st V P h hden => ?_, ⟨by norm_num, by norm_num,
    ?_, by norm_num⟩, ?_, ?_⟩
  · rw [GetHumRatioFromVapPres, if_pos h]
  · rw [GetHumRatioFromVapPres, if_neg (by linarith)]
  · rw [GetHumRatioFromVapPres, if_neg (by norm_num)]
  · rw [GetSatHumRatio, getSatVapPres_SI_liquid isIP_stSI (by norm_num)
      (by norm_num)]
    rfl
  · have he := Real.exp_pos (lnPwsLiquidSI (GetTKelvinFromTCelsius 25))
    rw [zero_sub, div_neg, mul_div_assoc, div_self he.ne']
    norm_num

/-- C10 witness: the rejection branch at `VapPres = -1` and the numeric
branch at `VapPres = 3`, `Pressure = 101325`. -/
theorem c10_witness :
    ((-1 : ℝ) < 0 ∧ GetHumRatioFromVapPres initState (-1) 101325 = none) ∧
      ((0 : ℝ) ≤ 3 ∧ (101325 : ℝ) - 3 ≠ 0 ∧
        GetHumRatioFromVapPres initState 3 101325 =
          some (0.621945 * 3 / (101325 - 3))) :=
  ⟨⟨by norm_num, c10_unguarded_denominator.1 _ _ _ (by norm_num)⟩,
    ⟨by norm_num, by norm_num,
      c10_unguarded_denominator.2.1 _ _ _ (by norm_num) (by norm_num)⟩⟩

lemma tk25 : GetTKelvinFromTCelsius 25 = 298.15 := by
  norm_num [GetTKelvinFromTCelsius]

lemma tk0 : GetTKelvinFromTCelsius 0 = 273.15 := by
  norm_num [GetTKelvinFromTCelsius]

lemma tkM100 : GetTKelvinFromTCelsius (-100) = 173.15 := by
  norm_num [GetTKelvinFromTCelsius]

lemma tk200 : GetTKelvinFromTCelsius 200 = 473.15 := by
  norm_num [GetTKelvinFromTCelsius]

lemma exp_five_lt : Real.exp 5 < 148.42 := by
  have h : Real.exp 5 = Real.exp 1 ^ (5 : ℕ) := by
    rw [← Real.exp_nat_mul]
    norm_num
  rw [h]
  calc Real.exp 1 ^ (5 : ℕ) < 2.7182818286 ^ (5 : ℕ) :=
        pow_lt_pow_left₀ Real.exp_one_lt_d9 (Real.exp_pos 1).le (by norm_num)
    _ < 148.42 := by norm_num

lemma lt_exp_six : (403.42 : ℝ) < Real.exp 6 := by
  have h : Real.exp 6 = Real.exp 1 ^ (6 : ℕ) := by
    rw [← Real.exp_nat_mul]
    norm_num
  rw [h]
  calc (403.42 : ℝ) < 2.7182818283 ^ (6 : ℕ) := by norm_num
    _ < Real.exp 1 ^ (6 : ℕ) :=
        pow_lt_pow_left₀ Real.exp_one_gt_d9 (by norm_num) (by norm_num)

lemma exp_six_lt : Real.exp 6 < 403.43 := by
  have h : Real.exp 6 = Real.exp 1 ^ (6 : ℕ) := by
    rw [← Real.exp_nat_mul]
    norm_num
  rw [h]
  calc Real.exp 1 ^ (6 : ℕ) < 2.7182818286 ^ (6 : ℕ) :=
        pow_lt_pow_left₀ Real.exp_one_lt_d9 (Real.exp_pos 1).le (by norm_num)
    _ < 403.43 := by norm_num

lemma lt_exp_seven : (1096.6 : ℝ) < Real.exp 7 := by
  have h : Real.exp 7 = Real.exp 1 ^ (7 : ℕ) := by
    rw [← Real.exp_nat_mul]
    norm_num
  rw [h]
  calc (1096.6 : ℝ) < 2.7182818283 ^ (7 : ℕ) := by norm_num
    _ < Real.exp 1 ^ (7 : ℕ) :=
        pow_lt_pow_left₀ Real.exp_one_gt_d9 (by norm_num) (by norm_num)

lemma exp_thirteen_lt : Real.exp 13 < 442414 := by
  have h : Real.exp 13 = Real.exp 1 ^ (13 : ℕ) := by
    rw [← Real.exp_nat_mul]
    norm_num
  rw [h]
  calc Real.exp 1 ^ (13 : ℕ) < 2.7182818286 ^ (13 : ℕ) :=
        pow_lt_pow_left₀ Real.exp_one_lt_d9 (Real.exp_pos 1).le (by norm_num)
    _ < 442414 := by norm_num

lemma log_17315_lt : Real.log 173.15 < 6 := by
  rw [Real.log_lt_iff_lt_exp (by norm_num)]
  exact lt_trans (by norm_num) lt_exp_six

lemma log_27315_gt : 5 < Real.log 273.15 := by
  rw [Real.lt_log_iff_exp_lt (by norm_num)]
  exact lt_trans exp_five_lt (by norm_num)

lemma log_27315_lt : Real.log 273.15 < 6 := by
  rw [Real.log_lt_iff_lt_exp (by norm_num)]
  exact lt_trans (by norm_num) lt_exp_six

lemma log_29815_lt : Real.log 298.15 < 6 := by
  rw [Real.log_lt_iff_lt_exp (by norm_num)]
  exact lt_trans (by norm_num) lt_exp_six

lemma log_47315_gt : 6 < Real.log 473.15 := by
  rw [Real.lt_log_iff_exp_lt (by norm_num)]
  exact lt_trans exp_six_lt (by norm_num)

lemma lnPwsIceSI_27315_pos : 0 < lnPwsIceSI 273.15 := by
  have h := log_27315_gt
  rw [lnPwsIceSI]
  nlinarith [h]

lemma lnPwsIceSI_27315_lt_nine : lnPwsIceSI 273.15 < 9 := by
  have h := log_27315_lt
  rw [lnPwsIceSI]
  nlinarith [h]

lemma lnPwsIceSI_17315_neg : lnPwsIceSI 173.15 < 0 := by
  have h := log_17315_lt
  rw [lnPwsIceSI]
  nlinarith [h]

lemma lnPwsLiquidSI_47315_gt_nine : 9 < lnPwsLiquidSI 473.15 := by
  have h := log_47315_gt
  rw [lnPwsLiquidSI]
  nlinarith [h]

lemma lnPwsLiquidSI_29815_lt_13 : lnPwsLiquidSI 298.15 < 13 := by
  have h := log_29815_lt
  rw [lnPwsLiquidSI]
  nlinarith [h]

lemma satVapPres_25_lt : Real.exp (lnPwsLiquidSI (GetTKelvinFromTCelsius 25))
    < 1000000 := by
  rw [tk25]
  calc Real.exp (lnPwsLiquidSI 298.15) < Real.exp 13 :=
        Real.exp_lt_exp.mpr lnPwsLiquidSI_29815_lt_13
    _ < 442414 := exp_thirteen_lt
    _ < 1000000 := by norm_num

/-- C5 counterexample: in SI units at dry-bulb `25 °C` and vapor pressure
`10⁶ Pa` (non-negative, so accepted), `GetRelHumFromVapPres` returns a
relative humidity strictly greater than `1`. -/
theorem c5_counterexample :
    GetRelHumFromVapPres stSI 25 1000000 =
        some (1000000 / Real.exp (lnPwsLiquidSI (GetTKelvinFromTCelsius 25))) ∧
      1 < 1000000 / Real.exp (lnPwsLiquidSI (GetTKelvinFromTCelsius 25)) := by
  constructor
  · rw [GetRelHumFromVapPres, if_neg (by norm_num),
      getSatVapPres_SI_liquid isIP_stSI (by norm_num) (by norm_num)]
    rfl
  · rw [one_lt_div (Real.exp_pos _)]
    exact satVapPres_25_lt

/-- C5 (amended): `GetRelHumFromVapPres` returns `VapPres / SatVapPres`,
which lies in `[0, 1]` for every non-negative vapor pressure that does not
exceed the saturation vapor pressure at the dry-bulb temperature; above the
saturation pressure the returned value exceeds `1` (no clamping is
performed). -/
theorem c5_relhum_in_unit_interval (st : LibState) (T V s : ℝ) (h0 : 0 ≤ V)
    (hs : GetSatVapPres st T = some s) (hle : V ≤ s) :
    GetRelHumFromVapPres st T V = some (V / s) ∧ 0 ≤ V / s ∧ V / s ≤ 1 := by
  have hpos := getSatVapPres_pos hs
  refine ⟨?_, div_nonneg h0 hpos.le, (div_le_one hpos).mpr hle⟩
  rw [GetRelHumFromVapPres, if_neg (by linarith), hs]
  rfl

/-- C5 witness: the amended statement applied in SI units at dry-bulb `25 °C`
and vapor pressure `0`. -/
theorem c5_witness :
    GetRelHumFromVapPres stSI 25 0 =
        some (0 / Real.exp (lnPwsLiquidSI (GetTKelvinFromTCelsius 25))) ∧
      0 ≤ 0 / Real.exp (lnPwsLiquidSI (GetTKelvinFromTCelsius 25)) ∧
      0 / Real.exp (lnPwsLiquidSI (GetTKelvinFromTCelsius 25)) ≤ 1 :=
  c5_relhum_in_unit_interval stSI 25 0 _ (by norm_num)
    (getSatVapPres_SI_liquid isIP_stSI (by norm_num) (by norm_num))
    (Real.exp_pos _).le

/-- C8: for every dry-bulb temperature accepted by `GetSatVapPres`, a
relative humidity of exactly `0` yields a vapor pressure of exactly `0`, and
a relative humidity of exactly `1` yields exactly the saturation vapor
pressure at that temperature. -/
theorem c8_vappres_boundary (st : LibState) (T s : ℝ)
    (hs : GetSatVapPres st T = some s) :
    GetVapPresFromRelHum st T 0 = some 0 ∧
      GetVapPresFromRelHum st T 1 = some s := by
  constructor <;>
    · rw [GetVapPresFromRelHum, if_neg (by norm_num), hs]
      simp

/-- C8 witness: the boundary identities in SI units at dry-bulb `25 °C`. -/
theorem c8_witness :
    GetVapPresFromRelHum stSI 25 0 = some 0 ∧
      GetVapPresFromRelHum stSI 25 1 =
        some (Real.exp (lnPwsLiquidSI (GetTKelvinFromTCelsius 25))) :=
  c8_vappres_boundary stSI 25 _
    (getSatVapPres_SI_liquid isIP_stSI (by norm_num) (by norm_num))

/-- C9: at a fixed dry-bulb temperature, the relative humidity returned by
`GetRelHumFromVapPres` is monotonically non-decreasing in the vapor
pressure. -/
theorem c9_relhum_monotone (st : LibState) (T p1 p2 r1 r2 : ℝ) (h0 : 0 ≤ p1)
    (h12 : p1 ≤ p2) (h1 : GetRelHumFromVapPres st T p1 = some r1)
    (h2 : GetRelHumFromVapPres st T p2 = some r2) : r1 ≤ r2 := by
  rw [GetRelHumFromVapPres, if_neg (by linarith)] at h1
  rw [GetRelHumFromVapPres, if_neg (by linarith)] at h2
  rcases hs : GetSatVapPres st T with _ | s
  · rw [hs] at h1
    simp at h1
  · have hpos := getSatVapPres_pos hs
    rw [hs] at h1 h2
    simp only [Option.map_some', Option.some_inj] at h1 h2
    rw [← h1, ← h2]
    gcongr

/-- C9 witness: monotonicity applied in SI units at dry-bulb `25 °C` between
vapor pressures `0` and `1`. -/
theorem c9_witness :
    0 / Real.exp (lnPwsLiquidSI (GetTKelvinFromTCelsius 25)) ≤
      1 / Real.exp (lnPwsLiquidSI (GetTKelvinFromTCelsius 25)) := by
  have hs := getSatVapPres_SI_liquid isIP_stSI
    (by norm_num : (0:ℝ) < 25) (by norm_num : (25:ℝ) ≤ 200)
  have h1 : GetRelHumFromVapPres stSI 25 0 =
      some (0 / Real.exp (lnPwsLiquidSI (GetTKelvinFromTCelsius 25))) := by
    rw [GetRelHumFromVapPres, if_neg (by norm_num), hs]
    rfl
  have h2 : GetRelHumFromVapPres stSI 25 1 =
      some (1 / Real.exp (lnPwsLiquidSI (GetTKelvinFromTCelsius 25))) := by
    rw [GetRelHumFromVapPres, if_neg (by norm_num), hs]
    rfl
  exact c9_relhum_monotone stSI 25 0 1 _ _ (by norm_num) (by norm_num) h1 h2

lemma wetBulbLoop_eq_spec (st : LibState) (T W P : ℝ) :
    ∀ (n : Nat) (lo hi : ℝ),
      wetBulbLoop st T W P n lo hi ((hi + lo) / 2) =
        wetBulbBisectSpec st T W P n lo hi := by
  intro n
  induction n with
  | zero => intro lo hi; rfl
  | succ n ih =>
    intro lo hi
    rw [wetBulbLoop, wetBulbBisectSpec]
    by_cases h : hi - lo > st.tol
    · rw [if_pos h, if_neg (by linarith)]
      apply congrArg
      funext Wstar
      by_cases hw : Wstar > W
      · rw [if_pos hw, if_pos hw]
        exact ih lo ((hi + lo) / 2)
      · rw [if_neg hw, if_neg hw]
        exact ih ((hi + lo) / 2) hi
    · rw [if_neg h, if_pos (by linarith)]

/-- C2: `GetTWetBulbFromHumRatio` coincides with the bisection described by
the spec: dew point as lower bound, dry bulb as upper bound, the midpoint
becoming the new upper bound when its humidity ratio (by
`GetHumRatioFromTWetBulb`) exceeds the target and the new lower bound
otherwise, returning the midpoint of the final interval once the width is at
most the configured tolerance. -/
theorem c2_wetbulb_is_spec_bisection (st : LibState) (dewFuel fuel : Nat)
    (T W P : ℝ) :
    GetTWetBulbFromHumRatio st dewFuel fuel T W P =
      GetTWetBulbFromHumRatioSpec st dewFuel fuel T W P := by
  rw [GetTWetBulbFromHumRatio, GetTWetBulbFromHumRatioSpec]
  by_cases h : W < 0
  · rw [if_pos h, if_pos h]
  · rw [if_neg h, if_neg h]
    apply congrArg
    funext Tdp
    rw [show ((Tdp + T) / 2 : ℝ) = (T + Tdp) / 2 by ring]
    exact wetBulbLoop_eq_spec st T W P fuel Tdp T

lemma dewPointLoop_mem {st : LibState} {lo hi stepMag tMid lnVP : ℝ}
    (hlohi : lo ≤ hi) :
    ∀ {n : Nat} {t r : ℝ},
      dewPointLoop st lo hi stepMag tMid lnVP n t = some r →
        lo ≤ r ∧ r ≤ hi := by
  intro n
  induction n with
  | zero => intro t r h; exact absurd h (by rw [dewPointLoop]; simp)
  | succ n ih =>
    intro t r h
    rw [dewPointLoop, Option.bind_eq_some] at h
    obtain ⟨pws, _, h⟩ := h
    rw [Option.bind_eq_some] at h
    obtain ⟨pwsStep, _, h⟩ := h
    simp only [] at h
    split_ifs at h
    all_goals
      first
        | exact ih h
        | (rw [Option.some_inj] at h
           exact h ▸ ⟨le_min (le_max_right _ _) hlohi, min_le_right _ _⟩)

lemma dewPointLoop_first_sat {st : LibState} {lo hi stepMag tMid lnVP : ℝ}
    {n : Nat} {t r : ℝ}
    (h : dewPointLoop st lo hi stepMag tMid lnVP (n + 1) t = some r) :
    ∃ p, GetSatVapPres st t = some p := by
  rw [dewPointLoop, Option.bind_eq_some] at h
  obtain ⟨pws, hp, _⟩ := h
  exact ⟨pws, hp⟩

lemma getTDewPointFromVapPres_post {st : LibState} {fuel : Nat} {T V r : ℝ}
    (h : GetTDewPointFromVapPres st fuel T V = some r) :
    r ≤ T ∧
      ((isIP st = some true ∧ -148 ≤ r ∧ r ≤ 392 ∧ -148 ≤ T ∧ T ≤ 392) ∨
        (isIP st = some false ∧ -100 ≤ r ∧ r ≤ 200 ∧ -100 ≤ T ∧ T ≤ 200)) := by
  rw [GetTDewPointFromVapPres, Option.bind_eq_some] at h
  obtain ⟨ip, hip, h⟩ := h
  rcases ip
  · simp only [Bool.false_eq_true, if_false, Option.bind_eq_some] at h
    obtain ⟨svpLo, _, h⟩ := h
    obtain ⟨svpHi, _, h⟩ := h
    by_cases hcheck : V < svpLo ∨ V > svpHi
    · rw [if_pos hcheck] at h
      simp at h
    · rw [if_neg hcheck, Option.map_eq_some'] at h
      obtain ⟨td, hloop, hmin⟩ := h
      rcases fuel with _ | n
      · exact absurd hloop (by rw [dewPointLoop]; simp)
      · obtain ⟨p, hp⟩ := dewPointLoop_first_sat hloop
        rcases getSatVapPres_range hp with ⟨htrue, _⟩ | ⟨_, hT1, hT2⟩
        · rw [hip] at htrue
          simp at htrue
        · have hmem := dewPointLoop_mem (by norm_num) hloop
          subst hmin
          exact ⟨min_le_right _ _,
            Or.inr ⟨hip, le_min hmem.1 hT1, le_trans (min_le_left _ _) hmem.2,
              hT1, hT2⟩⟩
  · simp only [if_true, Option.bind_eq_some] at h
    obtain ⟨svpLo, _, h⟩ := h
    obtain ⟨svpHi, _, h⟩ := h
    by_cases hcheck : V < svpLo ∨ V > svpHi
    · rw [if_pos hcheck] at h
      simp at h
    · rw [if_neg hcheck, Option.map_eq_some'] at h
      obtain ⟨td, hloop, hmin⟩ := h
      rcases fuel with _ | n
      · exact absurd hloop (by rw [dewPointLoop]; simp)
      · obtain ⟨p, hp⟩ := dewPointLoop_first_sat hloop
        rcases getSatVapPres_range hp with ⟨_, hT1, hT2⟩ | ⟨hfalse, _⟩
        · have hmem := dewPointLoop_mem (by norm_num) hloop
          subst hmin
          exact ⟨min_le_right _ _,
            Or.inl ⟨hip, le_min hmem.1 hT1, le_trans (min_le_left _ _) hmem.2,
              hT1, hT2⟩⟩
        · rw [hip] at hfalse
          simp at hfalse

/-- C1: whenever `GetTDewPointFromVapPres` returns a dew point, that value
does not exceed the supplied dry-bulb temperature (final clamp
`min(TDewPoint, TDryBulb)`) and lies within the unit-system validity bounds
(`[-148, 392] °F` for IP, `[-100, 200] °C` for SI), the iteration having
started from the dry-bulb temperature and clamped every estimate to those
bounds. -/
theorem c1_dewpoint_clamped (st : LibState) (fuel : Nat) (T V r : ℝ)
    (h : GetTDewPointFromVapPres st fuel T V = some r) :
    r ≤ T ∧
      ((isIP st = some true ∧ -148 ≤ r ∧ r ≤ 392) ∨
        (isIP st = some false ∧ -100 ≤ r ∧ r ≤ 200)) := by
  obtain ⟨h1, h2⟩ := getTDewPointFromVapPres_post h
  exact ⟨h1, h2.imp (fun x => ⟨x.1, x.2.1, x.2.2.1⟩)
    (fun x => ⟨x.1, x.2.1, x.2.2.1⟩)⟩

lemma satVapPres_stSI_M100 :
    GetSatVapPres stSI (-100) =
      some (Real.exp (lnPwsIceSI (GetTKelvinFromTCelsius (-100)))) :=
  getSatVapPres_SI_ice isIP_stSI (by norm_num) (by norm_num)

lemma satVapPres_stSI_0 :
    GetSatVapPres stSI 0 =
      some (Real.exp (lnPwsIceSI (GetTKelvinFromTCelsius 0))) :=
  getSatVapPres_SI_ice isIP_stSI (by norm_num) (by norm_num)

lemma satVapPres_stSI_200 :
    GetSatVapPres stSI 200 =
      some (Real.exp (lnPwsLiquidSI (GetTKelvinFromTCelsius 200))) :=
  getSatVapPres_SI_liquid isIP_stSI (by norm_num) (by norm_num)

lemma satVapPres_stSI_001 :
    GetSatVapPres stSI (0 + 0.01) =
      some (Real.exp (lnPwsLiquidSI (GetTKelvinFromTCelsius (0 + 0.01)))) :=
  getSatVapPres_SI_liquid isIP_stSI (by norm_num) (by norm_num)

lemma lnPws_M100_le_0 :
    lnPwsIceSI (GetTKelvinFromTCelsius (-100)) ≤
      lnPwsIceSI (GetTKelvinFromTCelsius 0) := by
  rw [tkM100, tk0]
  exact le_of_lt (lt_trans lnPwsIceSI_17315_neg lnPwsIceSI_27315_pos)

lemma lnPws_0_le_200 :
    lnPwsIceSI (GetTKelvinFromTCelsius 0) ≤
      lnPwsLiquidSI (GetTKelvinFromTCelsius 200) := by
  rw [tk0, tk200]
  exact le_of_lt (lt_trans lnPwsIceSI_27315_lt_nine lnPwsLiquidSI_47315_gt_nine)

lemma dewPointRun_saturated :
    GetTDewPointFromVapPres stSI 1 0
        (Real.exp (lnPwsIceSI (GetTKelvinFromTCelsius 0))) = some 0 := by
  rw [GetTDewPointFromVapPres, isIP_stSI, Option.some_bind]
  simp only [Bool.false_eq_true, if_false]
  rw [satVapPres_stSI_M100, Option.some_bind, satVapPres_stSI_200,
    Option.some_bind]
  rw [if_neg ?hcheck]
  case hcheck =>
    push_neg
    exact ⟨Real.exp_le_exp.mpr lnPws_M100_le_0,
      Real.exp_le_exp.mpr lnPws_0_le_200⟩
  rw [show (1 : Nat) = 0 + 1 from rfl, dewPointLoop]
  simp only []
  rw [if_neg (by norm_num : ¬ (0 : ℝ) > (-100 + 200) / 2)]
  rw [satVapPres_stSI_0, Option.some_bind, satVapPres_stSI_001,
    Option.some_bind]
  simp only [sub_self, zero_div, sub_zero]
  rw [max_eq_left (by norm_num : (-100 : ℝ) ≤ 0),
    min_eq_left (by norm_num : (0 : ℝ) ≤ 200)]
  rw [if_pos (by rw [abs_zero, stSI_tol]; norm_num)]
  simp

/-- C1 witness: the clamping statement applied to the terminating run at
dry-bulb `0 °C` and target vapor pressure equal to the saturation pressure
at `0 °C` (the Newton-Raphson iteration converges in one step to `0`). -/
theorem c1_witness :
    GetTDewPointFromVapPres stSI 1 0
        (Real.exp (lnPwsIceSI (GetTKelvinFromTCelsius 0))) = some 0 ∧
      ((0 : ℝ) ≤ 0 ∧
        ((isIP stSI = some true ∧ (-148 : ℝ) ≤ 0 ∧ (0 : ℝ) ≤ 392) ∨
          (isIP stSI = some false ∧ (-100 : ℝ) ≤ 0 ∧ (0 : ℝ) ≤ 200))) :=
  ⟨dewPointRun_saturated,
    c1_dewpoint_clamped stSI 1 0 _ 0 dewPointRun_saturated⟩

/-- C7 counterexample: in SI units the vapor pressure `1000 Pa` lies between
the saturation pressures at the bounds `-100 °C` and `200 °C` (so the claim
says no fault is raised), yet `GetTDewPointFromVapPres` at dry-bulb `300 °C`
still fails, because the first Newton-Raphson iteration evaluates the
saturation pressure at the out-of-range initial guess `300 °C`. -/
theorem c7_counterexample :
    GetSatVapPres stSI (-100) =
        some (Real.exp (lnPwsIceSI (GetTKelvinFromTCelsius (-100)))) ∧
      GetSatVapPres stSI 200 =
        some (Real.exp (lnPwsLiquidSI (GetTKelvinFromTCelsius 200))) ∧
      Real.exp (lnPwsIceSI (GetTKelvinFromTCelsius (-100))) ≤ 1000 ∧
      (1000 : ℝ) ≤ Real.exp (lnPwsLiquidSI (GetTKelvinFromTCelsius 200)) ∧
      GetTDewPointFromVapPres stSI 1 300 1000 = none := by
  have hM100lt : Real.exp (lnPwsIceSI (GetTKelvinFromTCelsius (-100))) ≤ 1000 := by
    rw [tkM100]
    refine le_of_lt ?_
    calc Real.exp (lnPwsIceSI 173.15) < Real.exp 0 :=
          Real.exp_lt_exp.mpr lnPwsIceSI_17315_neg
      _ = 1 := Real.exp_zero
      _ ≤ 1000 := by norm_num
  have h200gt : (1000 : ℝ) ≤ Real.exp (lnPwsLiquidSI (GetTKelvinFromTCelsius 200)) := by
    rw [tk200]
    refine le_of_lt ?_
    calc (1000 : ℝ) < 1096.6 := by norm_num
      _ < Real.exp 7 := lt_exp_seven
      _ ≤ Real.exp (lnPwsLiquidSI 473.15) :=
          Real.exp_le_exp.mpr (by linarith [lnPwsLiquidSI_47315_gt_nine])
  refine ⟨satVapPres_stSI_M100, satVapPres_stSI_200, hM100lt, h200gt, ?_⟩
  rw [GetTDewPointFromVapPres, isIP_stSI, Option.some_bind]
  simp only [Bool.false_eq_true, if_false]
  rw [satVapPres_stSI_M100, Option.some_bind, satVapPres_stSI_200,
    Option.some_bind]
  rw [if_neg (by push_neg; exact ⟨by linarith, by linarith⟩)]
  rw [show (1 : Nat) = 0 + 1 from rfl, dewPointLoop]
  simp only []
  rw [show GetSatVapPres stSI 300 = none from by
    rw [GetSatVapPres, isIP_stSI, Option.some_bind]
    simp only [Bool.false_eq_true, if_false]
    rw [if_pos (Or.inr (by norm_num))]]
  rfl

/-- C7 (amended): `GetTDewPointFromVapPres` raises the invalid-argument fault
at its initial range check exactly when the target vapor pressure is below
the saturation pressure at the lower validity bound or above the saturation
pressure at the upper bound (`[-148, 392] °F` in IP, `[-100, 200] °C` in SI);
when the vapor pressure passes this check the function can still fail later,
during the iteration, if the dry-bulb initial guess lies outside those same
bounds. -/
theorem c7_rejects_outside_bounds (st : LibState) (fuel : Nat) (T V : ℝ)
    (ip : Bool) (slo shi : ℝ) (hip : isIP st = some ip)
    (hlo : GetSatVapPres st (if ip then -148 else -100) = some slo)
    (hhi : GetSatVapPres st (if ip then 392 else 200) = some shi)
    (hout : V < slo ∨ V > shi) :
    GetTDewPointFromVapPres st fuel T V = none := by
  rw [GetTDewPointFromVapPres, hip, Option.some_bind]
  rcases ip
  · simp only [Bool.false_eq_true, if_false] at hlo hhi ⊢
    rw [hlo, Option.some_bind, hhi, Option.some_bind, if_pos hout]
  · simp only [if_true] at hlo hhi ⊢
    rw [hlo, Option.some_bind, hhi, Option.some_bind, if_pos hout]

/-- C7 witness: the rejection applied in SI units to the negative vapor
pressure `-1`, which is below the saturation pressure at `-100 °C`. -/
theorem c7_witness : GetTDewPointFromVapPres stSI 1 0 (-1) = none :=
  c7_rejects_outside_bounds stSI 1 0 (-1) false _ _ isIP_stSI
    satVapPres_stSI_M100 satVapPres_stSI_200
    (Or.inl (lt_trans (by norm_num) (Real.exp_pos _)))

lemma humRatioFromTWetBulb_isSome (st : LibState) {ip : Bool}
    (hip : isIP st = some ip) {T Twb : ℝ} (P : ℝ) (hle : Twb ≤ T)
    (h1 : (if ip then (-148 : ℝ) else -100) ≤ Twb)
    (h2 : Twb ≤ (if ip then (392 : ℝ) else 200)) :
    ∃ w, GetHumRatioFromTWetBulb st T Twb P = some w := by
  obtain ⟨s, hs⟩ := getSatVapPres_isSome hip h1 h2
  rw [GetHumRatioFromTWetBulb, if_neg (by linarith), GetSatHumRatio, hs]
  simp only [Option.map_some', Option.some_bind, hip]
  exact ⟨_, rfl⟩

lemma wetBulbLoop_terminates (st : LibState) {ip : Bool}
    (hip : isIP st = some ip) (T W P : ℝ)
    (hT : T ≤ (if ip then (392 : ℝ) else 200)) :
    ∀ (n : Nat) (lo hi : ℝ), (if ip then (-148 : ℝ) else -100) ≤ lo →
      hi ≤ T → lo ≤ hi → hi - lo ≤ st.tol * 2 ^ n →
      ∃ r, wetBulbLoop st T W P (n + 1) lo hi ((hi + lo) / 2) = some r := by
  intro n
  induction n with
  | zero =>
    intro lo hi _ _ _ hwidth
    rw [pow_zero, mul_one] at hwidth
    rw [wetBulbLoop, if_neg (by linarith)]
    exact ⟨_, rfl⟩
  | succ n ih =>
    intro lo hi hA hhi hord hwidth
    by_cases hg : hi - lo > st.tol
    · rw [wetBulbLoop, if_pos hg]
      obtain ⟨w, hw⟩ := humRatioFromTWetBulb_isSome st hip P
        (by linarith : (hi + lo) / 2 ≤ T)
        (by linarith : (if ip then (-148 : ℝ) else -100) ≤ (hi + lo) / 2)
        (by linarith : (hi + lo) / 2 ≤ (if ip then (392 : ℝ) else 200))
      rw [hw, Option.some_bind]
      rw [pow_succ] at hwidth
      by_cases hcmp : w > W
      · rw [if_pos hcmp]
        exact ih lo ((hi + lo) / 2) hA (by linarith) (by linarith)
          (by linarith)
      · rw [if_neg hcmp]
        exact ih ((hi + lo) / 2) hi (by linarith) hhi (by linarith)
          (by linarith)
    · rw [wetBulbLoop, if_neg hg]
      exact ⟨_, rfl⟩

/-- C6: whenever the dew-point computation succeeds and the configured
tolerance is strictly positive, the bisection loop of
`GetTWetBulbFromHumRatio` terminates with a result for some finite number of
iterations: the interval width halves at every step, so a fuel of
`n + 1` iterations suffices as soon as the initial width
`TDryBulb - TDewPoint` is at most `tol * 2 ^ n`. -/
theorem c6_bisection_terminates (st : LibState) (dewFuel : Nat)
    (T W P Tdp : ℝ) (hW : 0 ≤ W) (htol : 0 < st.tol)
    (hdp : GetTDewPointFromHumRatio st dewFuel T W P = some Tdp) :
    ∃ (fuel : Nat) (r : ℝ),
      GetTWetBulbFromHumRatio st dewFuel fuel T W P = some r := by
  have hdw : ∃ V, GetTDewPointFromVapPres st dewFuel T V = some Tdp := by
    rw [GetTDewPointFromHumRatio, if_neg (by linarith),
      Option.bind_eq_some] at hdp
    obtain ⟨V, _, hV⟩ := hdp
    exact ⟨V, hV⟩
  obtain ⟨V, hV⟩ := hdw
  obtain ⟨hTdpT, hcase⟩ := getTDewPointFromVapPres_post hV
  obtain ⟨n, hn⟩ := pow_unbounded_of_one_lt ((T - Tdp) / st.tol)
    (by norm_num : (1 : ℝ) < 2)
  have hwidth : T - Tdp ≤ st.tol * 2 ^ n := by
    rw [div_lt_iff₀ htol] at hn
    nlinarith
  refine ⟨n + 1, ?_⟩
  rw [GetTWetBulbFromHumRatio, if_neg (by linarith), hdp, Option.some_bind]
  rw [show ((Tdp + T) / 2 : ℝ) = (T + Tdp) / 2 by ring]
  rcases hcase with ⟨hip, h1, _, _, h4⟩ | ⟨hip, h1, _, _, h4⟩
  · exact wetBulbLoop_terminates st hip T W P h4 n Tdp T h1 le_rfl hTdpT
      hwidth
  · exact wetBulbLoop_terminates st hip T W P h4 n Tdp T h1 le_rfl hTdpT
      hwidth

lemma dewPointFromHumRatioRun_saturated :
    GetTDewPointFromHumRatio stSI 1 0 0.621945
        (2 * Real.exp (lnPwsIceSI (GetTKelvinFromTCelsius 0))) = some 0 := by
  rw [GetTDewPointFromHumRatio, if_neg (by norm_num), GetVapPresFromHumRatio,
    if_neg (by norm_num), Option.some_bind]
  rw [show (2 * Real.exp (lnPwsIceSI (GetTKelvinFromTCelsius 0))) * 0.621945
        / (0.621945 + 0.621945) =
      Real.exp (lnPwsIceSI (GetTKelvinFromTCelsius 0)) from by
    rw [div_eq_iff (by norm_num : ((0.621945 : ℝ) + 0.621945) ≠ 0)]
    ring_nf]
  exact dewPointRun_saturated

/-- C6 witness: termination applied in SI units at dry-bulb `0 °C`, humidity
ratio `0.621945` and pressure `2 · pws(0 °C)`, for which the dew-point solve
returns `0` after one Newton-Raphson iteration. -/
theorem c6_witness :
    (0 : ℝ) ≤ 0.621945 ∧ 0 < stSI.tol ∧
      ∃ (fuel : Nat) (r : ℝ),
        GetTWetBulbFromHumRatio stSI 1 fuel 0 0.621945
          (2 * Real.exp (lnPwsIceSI (GetTKelvinFromTCelsius 0))) = some r :=
  ⟨by norm_num, by rw [stSI_tol]; norm_num,
    c6_bisection_terminates stSI 1 0 0.621945 _ 0 (by norm_num)
      (by rw [stSI_tol]; norm_num) dewPointFromHumRatioRun_saturated⟩

end Psychrolib
